import Mathlib

/-!
Verification of the ART dex cache (resolved-constant cache).

Shallow embedding of:
* `DexCachePair<T>` from `runtime/mirror/dex_cache.h` — an (object, index)
  cache slot with a slot-0 sentinel special case;
* the direct-mapped fixed-size sub-caches (`strings_`, `resolved_types_`,
  `resolved_method_types_`) with their power-of-two capacities
  `kDexCacheStringCacheSize` / `kDexCacheTypeCacheSize` /
  `kDexCacheMethodTypeCacheSize` = 1024;
* the bind-once call-site array (`resolved_call_sites_`);
* the native bindings from `runtime/native/java_lang_DexCache.cc`
  (`DexCache_getResolvedType`, `DexCache_getResolvedString`,
  `DexCache_setResolvedType`, `DexCache_setResolvedString`).

A `GcRoot<T>` (a nullable GC reference) is embedded as `Option α`; the
`uint32_t index` field is embedded as `Nat` (no arithmetic in the modelled
code can overflow 32 bits: the only index computations are `% capacity` and
bitwise masking). Fatal `CHECK` failures in the native bindings are embedded
as the `Except` error case. Concurrency is embedded by linearizing slot
operations: each slot load/store of the C++ code is a single atomic access,
so every interleaving is a sequence of whole-pair reads and writes.
-/

/-- Embeds `DexCachePair<T>` (dex_cache.h): a cache slot holding a nullable
GC reference `object` and the logical index `index` it caches. -/
structure DexCachePair (α : Type) where
  object : Option α
  index  : Nat
deriving DecidableEq

namespace DexCachePair

/-- Embeds `DexCachePair<T>::InvalidIndexForSlot` (dex_cache.h): the
empty-sentinel index of a physical slot — `1` for slot 0, `0` otherwise. -/
def InvalidIndexForSlot (slot : Nat) : Nat :=
  if slot = 0 then 1 else 0

/-- Embeds `DexCachePair<T>::GetObjectForIndex` (dex_cache.h): if the queried
index differs from the stored index the lookup misses (returns null);
otherwise the stored reference is returned as is. -/
def GetObjectForIndex (p : DexCachePair α) (idx : Nat) : Option α :=
  if idx ≠ p.index then none else p.object

/-- Embeds the zero-filled initial slot array (dex_cache.h comment:
"The array is initially [ {0,0}, {0,0}, {0,0} ... ]"). -/
def zeroFilled (α : Type) : Nat → DexCachePair α :=
  fun _ => ⟨none, 0⟩

/-- Embeds `DexCachePair<T>::Initialize` (dex_cache.h): store
`{nullptr, InvalidIndexForSlot(0)}` into slot 0, leaving the other slots
as they are. -/
def Initialize (slots : Nat → DexCachePair α) : Nat → DexCachePair α :=
  fun s => if s = 0 then ⟨none, InvalidIndexForSlot 0⟩ else slots s

/-- The fully initialized slot array: zero-fill followed by the slot-0
sentinel setup, as performed by `DexCache::InitializeDexCache` before the
cache becomes visible to any reader. -/
def freshSlots (α : Type) : Nat → DexCachePair α :=
  Initialize (zeroFilled α)

end DexCachePair

/-- Embeds `DexCache::kDexCacheTypeCacheSize` (dex_cache.h). -/
def kDexCacheTypeCacheSize : Nat := 1024

/-- Embeds `DexCache::kDexCacheStringCacheSize` (dex_cache.h). -/
def kDexCacheStringCacheSize : Nat := 1024

/-- Embeds `DexCache::kDexCacheMethodTypeCacheSize` (dex_cache.h). -/
def kDexCacheMethodTypeCacheSize : Nat := 1024

/-- Modelled from the spec: the physical slot of a logical index in a
direct-mapped cache of capacity `C` — "physical slot = `logical_index mod C`"
(§3), equivalently `logical_index & (C-1)` (§4.2) since `C` is a power of
two. The slot-index bodies (`DexCache::StringSlotIndex` etc.) are declared
but not defined in src. -/
def slotIndex (C k : Nat) : Nat := k % C

/-- Modelled from the spec: `Insert`/`Install` (§4.1, §4.2) — atomically
overwrite the pair at physical slot `slotIndex C k` with
`{value, logical_index}`, unconditionally (last writer wins). The bodies of
`DexCache::SetResolvedString` / `SetResolvedType` are not in src. -/
def insertSlot (C : Nat) (slots : Nat → DexCachePair α) (k : Nat) (v : α) :
    Nat → DexCachePair α :=
  fun s => if s = slotIndex C k then ⟨some v, k⟩ else slots s

/-- Modelled from the spec: `ClearIfMatching`/`Clear` (§4.1, §4.2) — if the
stored index of the slot equals the queried logical index, overwrite the
slot with its empty state (null object, the slot's empty-sentinel index, per
invariant INV1 and the §4.4 state machine `POPULATED → EMPTY`); otherwise
leave the cache unchanged. The bodies of `DexCache::ClearString` /
`ClearResolvedType` are not in src. -/
def clearSlot (C : Nat) (slots : Nat → DexCachePair α) (k : Nat) :
    Nat → DexCachePair α :=
  if (slots (slotIndex C k)).index = k then
    fun s => if s = slotIndex C k then
               ⟨none, DexCachePair.InvalidIndexForSlot (slotIndex C k)⟩
             else slots s
  else slots

/-- Modelled from the spec: `Lookup`/`TryGetForIndex` (§4.1, §4.2) — read
the pair at physical slot `slotIndex C k` as one atomic snapshot and
delegate to `GetObjectForIndex` (which is in src). -/
def lookupSlot (C : Nat) (slots : Nat → DexCachePair α) (k : Nat) : Option α :=
  (slots (slotIndex C k)).GetObjectForIndex k

/-- The slot invariant of dex_cache.h ("Any given entry would thus be:
{non-0, non-0} OR {0,0}", with `{0,1}` as slot 0's empty state): the pair at
physical slot `s` is either fully empty — null object with the slot's
empty-sentinel index — or fully populated — non-null object caching a
logical index that maps to `s`. -/
def SlotInvariant (C s : Nat) (p : DexCachePair α) : Prop :=
  (p.object = none ∧ p.index = DexCachePair.InvalidIndexForSlot s) ∨
  (p.object ≠ none ∧ p.index % C = s)

/-- The whole-cache invariant: every physical slot satisfies `SlotInvariant`. -/
def CacheInvariant (C : Nat) (slots : Nat → DexCachePair α) : Prop :=
  ∀ s, s < C → SlotInvariant C s (slots s)

lemma slotIndex_lt (C k : Nat) (hC : 0 < C) : slotIndex C k < C :=
  Nat.mod_lt _ hC

lemma cacheInvariant_fresh {α : Type} (C : Nat) :
    CacheInvariant C (DexCachePair.freshSlots α) := by
  intro s _
  unfold DexCachePair.freshSlots DexCachePair.Initialize DexCachePair.zeroFilled
  by_cases h : s = 0 <;>
    simp [h, SlotInvariant, DexCachePair.InvalidIndexForSlot]

lemma cacheInvariant_insert {α : Type} (C : Nat)
    (slots : Nat → DexCachePair α) (k : Nat) (v : α)
    (h : CacheInvariant C slots) :
    CacheInvariant C (insertSlot C slots k v) := by
  intro s hs
  unfold insertSlot
  by_cases hmatch : s = slotIndex C k
  · subst hmatch
    simp [SlotInvariant, slotIndex]
  · simpa [hmatch] using h s hs

lemma cacheInvariant_clear {α : Type} (C : Nat)
    (slots : Nat → DexCachePair α) (k : Nat)
    (h : CacheInvariant C slots) :
    CacheInvariant C (clearSlot C slots k) := by
  intro s hs
  unfold clearSlot
  by_cases hidx : (slots (slotIndex C k)).index = k
  · simp only [hidx, if_true]
    by_cases hmatch : s = slotIndex C k
    · subst hmatch
      simp [SlotInvariant]
    · simpa [hmatch] using h s hs
  · simpa [hidx] using h s hs

lemma invariant_match_not_none {α : Type} (C : Nat) (hC : 1 < C)
    (slots : Nat → DexCachePair α) (idx : Nat)
    (h : CacheInvariant C slots)
    (hmatch : (slots (slotIndex C idx)).index = idx) :
    (slots (slotIndex C idx)).object ≠ none := by
  have hs : slotIndex C idx < C := slotIndex_lt C idx (Nat.lt_of_lt_of_le Nat.one_pos hC.le)
  rcases h _ hs with ⟨_, hsent⟩ | ⟨hobj, _⟩
  · exfalso
    rw [hmatch] at hsent
    unfold DexCachePair.InvalidIndexForSlot at hsent
    by_cases h0 : slotIndex C idx = 0
    · rw [if_pos h0] at hsent
      have : slotIndex C idx = 1 % C := by
        rw [← hsent]; rfl
      rw [Nat.mod_eq_of_lt hC] at this
      exact absurd (this ▸ h0) (by simp)
    · rw [if_neg h0] at hsent
      have : slotIndex C idx = 0 % C := by
        rw [← hsent]; rfl
      simp [Nat.zero_mod] at this
      exact h0 this
  · exact hobj

/-- Embeds the slice of `const DexFile` that the dex cache and its native
bindings consult: the declared counts `NumStringIds()` / `NumTypeIds()` and
the descriptor table `StringByTypeIdx` (the textual descriptor declared for
a type index). -/
structure DexFile where
  numStringIds : Nat
  numTypeIds : Nat
  stringByTypeIdx : Nat → String

/-- Embeds `mirror::Class` as far as the native bindings observe it: its
textual descriptor (compared by `DescriptorEquals`) and an identity `id`
distinguishing distinct class objects that share a descriptor. -/
structure MirrorClass where
  descriptor : String
  id : Nat
deriving DecidableEq

/-- Embeds `mirror::CallSite` as an opaque object identity. -/
structure CallSite where
  id : Nat
deriving DecidableEq

/-- Embeds the `mirror::DexCache` instance state used by the modelled
operations: the back-reference `dex_file_`, the direct-mapped `strings_` and
`resolved_types_` slot arrays, and the `resolved_call_sites_` root array
with its count `num_resolved_call_sites_`. -/
structure DexCache where
  dex_file : DexFile
  strings : Nat → DexCachePair String
  resolved_types : Nat → DexCachePair MirrorClass
  resolved_call_sites : Nat → Option CallSite
  num_resolved_call_sites : Nat

namespace DexCache

/-- Modelled from the spec: `DexCache::StringSlotIndex` (declared only in
src) — the physical slot of a string index in the `strings_` array. -/
def StringSlotIndex (string_idx : Nat) : Nat :=
  slotIndex kDexCacheStringCacheSize string_idx

/-- Modelled from the spec: `DexCache::TypeSlotIndex` (declared only in
src) — the physical slot of a type index in the `resolved_types_` array. -/
def TypeSlotIndex (type_idx : Nat) : Nat :=
  slotIndex kDexCacheTypeCacheSize type_idx

/-- Modelled from the spec: `DexCache::GetResolvedString` (declared only in
src) — atomic snapshot of the string slot, then `GetObjectForIndex`. -/
def GetResolvedString (c : DexCache) (string_idx : Nat) : Option String :=
  lookupSlot kDexCacheStringCacheSize c.strings string_idx

/-- Modelled from the spec: `DexCache::SetResolvedString` (declared only in
src) — store `{resolved, string_idx}` into the string slot. -/
def SetResolvedString (c : DexCache) (string_idx : Nat) (resolved : String) :
    DexCache :=
  { c with strings := insertSlot kDexCacheStringCacheSize c.strings string_idx resolved }

/-- Modelled from the spec: `DexCache::ClearString` (declared only in src) —
compare-then-clear of the string slot. -/
def ClearString (c : DexCache) (string_idx : Nat) : DexCache :=
  { c with strings := clearSlot kDexCacheStringCacheSize c.strings string_idx }

/-- Modelled from the spec: `DexCache::GetResolvedType` (declared only in
src) — atomic snapshot of the type slot, then `GetObjectForIndex`. -/
def GetResolvedType (c : DexCache) (type_idx : Nat) : Option MirrorClass :=
  lookupSlot kDexCacheTypeCacheSize c.resolved_types type_idx

/-- Modelled from the spec: `DexCache::SetResolvedType` (declared only in
src) — store `{resolved, type_idx}` into the type slot. -/
def SetResolvedType (c : DexCache) (type_idx : Nat) (resolved : MirrorClass) :
    DexCache :=
  { c with resolved_types := insertSlot kDexCacheTypeCacheSize c.resolved_types type_idx resolved }

/-- Modelled from the spec: `DexCache::ClearResolvedType` (declared only in
src) — compare-then-clear of the type slot. -/
def ClearResolvedType (c : DexCache) (type_idx : Nat) : DexCache :=
  { c with resolved_types := clearSlot kDexCacheTypeCacheSize c.resolved_types type_idx }

/-- Modelled from the spec: `DexCache::SetResolvedCallSite` (declared only
in src, documented there as "Attempts to bind call_site_idx to the call
site resolved. The caller must use the return value in place of resolved.")
— a sequentially consistent compare-and-install against null: if the slot
is null, install the candidate and return it; otherwise leave everything
unchanged, discard the candidate, and return the already-installed value. -/
def SetResolvedCallSite (c : DexCache) (call_site_idx : Nat)
    (resolved : CallSite) : DexCache × CallSite :=
  match c.resolved_call_sites call_site_idx with
  | none =>
      ({ c with resolved_call_sites :=
           fun i => if i = call_site_idx then some resolved
                    else c.resolved_call_sites i },
       resolved)
  | some winner => (c, winner)

end DexCache

/-- A linearization of competing `SetResolvedCallSite` calls on one index:
run the calls one after the other (each call is a single sequentially
consistent compare-and-install, so every concurrent execution linearizes to
some such sequence), collecting the value each call returns. -/
def runCallSiteBinds (c : DexCache) (call_site_idx : Nat) :
    List CallSite → DexCache × List CallSite
  | [] => (c, [])
  | cand :: rest =>
      let step := c.SetResolvedCallSite call_site_idx cand
      let next := runCallSiteBinds step.1 call_site_idx rest
      (next.1, step.2 :: next.2)

/-- Embeds the fatal outcome of a failed `CHECK` in the native bindings: the
runtime aborts instead of returning. -/
inductive FatalAbort where
  | checkFailure
deriving DecidableEq

/-- Embeds `DexCache_getResolvedType` (java_lang_DexCache.cc): abort unless
`type_index < NumTypeIds()`, then return the cached resolved type. -/
def DexCache_getResolvedType (c : DexCache) (type_index : Nat) :
    Except FatalAbort (Option MirrorClass) :=
  if type_index < c.dex_file.numTypeIds then
    .ok (c.GetResolvedType type_index)
  else
    .error .checkFailure

/-- Embeds `DexCache_getResolvedString` (java_lang_DexCache.cc): abort
unless `string_index < NumStringIds()`, then return the cached string. -/
def DexCache_getResolvedString (c : DexCache) (string_index : Nat) :
    Except FatalAbort (Option String) :=
  if string_index < c.dex_file.numStringIds then
    .ok (c.GetResolvedString string_index)
  else
    .error .checkFailure

/-- Embeds `DexCache_setResolvedType` (java_lang_DexCache.cc): abort unless
`type_index < NumTypeIds()`; then install `t` only when `t` is non-null, its
descriptor equals the dex file's declared descriptor for `type_index`, a
class table exists for the cache, and the table's insert-or-get-existing
(`ClassTable::TryInsert`, modelled from the spec as a function from the
offered class to the canonical class, since the class table is not in src)
returns `t` itself; in every other case the cache is left unchanged.
`table` embeds the result of `ClassLinker::FindClassTable` (`none` when no
table is found). -/
def DexCache_setResolvedType (table : Option (MirrorClass → MirrorClass))
    (c : DexCache) (type_index : Nat) (t : Option MirrorClass) :
    Except FatalAbort DexCache :=
  if type_index < c.dex_file.numTypeIds then
    .ok (match t with
      | some t' =>
          if t'.descriptor = c.dex_file.stringByTypeIdx type_index then
            match table with
            | some tbl =>
                if tbl t' = t' then c.SetResolvedType type_index t' else c
            | none => c
          else c
      | none => c)
  else
    .error .checkFailure

/-- Embeds `DexCache_setResolvedString` (java_lang_DexCache.cc): abort
unless `string_index < NumStringIds()`; then install `s` when it is
non-null, otherwise do nothing. -/
def DexCache_setResolvedString (c : DexCache) (string_index : Nat)
    (s : Option String) : Except FatalAbort DexCache :=
  if string_index < c.dex_file.numStringIds then
    .ok (match s with
      | some s' => c.SetResolvedString string_index s'
      | none => c)
  else
    .error .checkFailure

/-- A concrete dex cache used to instantiate hypothesis-bearing theorems:
a dex file declaring 8 string ids and 8 type ids, all descriptors "LA;",
freshly initialized slot arrays, and 4 unbound call sites. -/
def sampleCache : DexCache where
  dex_file := { numStringIds := 8, numTypeIds := 8, stringByTypeIdx := fun _ => "LA;" }
  strings := DexCachePair.freshSlots String
  resolved_types := DexCachePair.freshSlots MirrorClass
  resolved_call_sites := fun _ => none
  num_resolved_call_sites := 4

lemma getObjectForIndex_of_object_none {α : Type} (p : DexCachePair α)
    (idx : Nat) (h : p.object = none) : p.GetObjectForIndex idx = none := by
  unfold DexCachePair.GetObjectForIndex
  split <;> simp [h]

lemma runCallSiteBinds_of_bound (k : Nat) (w : CallSite) :
    ∀ (cs : List CallSite) (c : DexCache), c.resolved_call_sites k = some w →
      runCallSiteBinds c k cs = (c, List.replicate cs.length w) := by
  intro cs
  induction cs with
  | nil => intro c _; rfl
  | cons cand rest ih =>
      intro c hbound
      have hstep : c.SetResolvedCallSite k cand = (c, w) := by
        unfold DexCache.SetResolvedCallSite
        rw [hbound]
      unfold runCallSiteBinds
      rw [hstep]
      simp only []
      rw [ih c hbound]
      rfl

/-- C2: for every slot state and queried logical index, the slot lookup
`GetObjectForIndex` returns the stored populated value if and only if the
stored index equals the queried index, and on an index mismatch it returns
the not-found signal (`none`); the lookup is a pure function of the slot
snapshot (no side effects), and a miss is an ordinary `none` result, not an
error. -/
theorem C2_slot_lookup_iff_index_match {α : Type} (p : DexCachePair α)
    (idx : Nat) (v : α) (hpop : p.object = some v) :
    (p.GetObjectForIndex idx = some v ↔ p.index = idx) ∧
    (p.index ≠ idx → p.GetObjectForIndex idx = none) := by
  unfold DexCachePair.GetObjectForIndex
  constructor
  · constructor
    · intro h
      by_contra hne
      rw [if_pos (Ne.symm hne)] at h
      exact Option.noConfusion h
    · intro h
      simp [h, hpop]
  · intro h
    simp [Ne.symm h]

/-- Witness for C2 at the populated slot `{some 5, 3}` queried with index 3. -/
theorem C2_slot_lookup_iff_index_match_witness :
    ((⟨some 5, 3⟩ : DexCachePair Nat).GetObjectForIndex 3 = some 5 ↔
       (⟨some 5, 3⟩ : DexCachePair Nat).index = 3) ∧
    ((⟨some 5, 3⟩ : DexCachePair Nat).index ≠ 3 →
       (⟨some 5, 3⟩ : DexCachePair Nat).GetObjectForIndex 3 = none) :=
  C2_slot_lookup_iff_index_match ⟨some 5, 3⟩ 3 5 rfl

/-- C3: slot 0's empty sentinel is 1 while every other slot's is 0; a fresh
cache misses on `Lookup(0)`; inserting at logical index 0 and looking up 0
returns the inserted value; and inserting at any index `m·C` with `m > 0`
(which lands in slot 0) stores an index different from slot 0's empty
sentinel, so it can never be confused with the empty encoding. -/
theorem C3_slot_zero_sentinel {α : Type} :
    DexCachePair.InvalidIndexForSlot 0 = 1 ∧
    (∀ s, s ≠ 0 → DexCachePair.InvalidIndexForSlot s = 0) ∧
    lookupSlot kDexCacheStringCacheSize (DexCachePair.freshSlots α) 0 = none ∧
    (∀ v : α,
       lookupSlot kDexCacheStringCacheSize
         (insertSlot kDexCacheStringCacheSize (DexCachePair.freshSlots α) 0 v) 0 = some v) ∧
    (∀ (slots : Nat → DexCachePair α) (m : Nat) (v : α), 0 < m →
       slotIndex kDexCacheStringCacheSize (m * kDexCacheStringCacheSize) = 0 ∧
       (insertSlot kDexCacheStringCacheSize slots (m * kDexCacheStringCacheSize) v 0).index ≠
         DexCachePair.InvalidIndexForSlot 0) := by
  refine ⟨rfl, ?_, ?_, ?_, ?_⟩
  · intro s hs
    simp [DexCachePair.InvalidIndexForSlot, hs]
  · simp [lookupSlot, slotIndex, DexCachePair.freshSlots, DexCachePair.Initialize,
      DexCachePair.zeroFilled, DexCachePair.GetObjectForIndex,
      DexCachePair.InvalidIndexForSlot, kDexCacheStringCacheSize]
  · intro v
    simp [lookupSlot, slotIndex, insertSlot, DexCachePair.GetObjectForIndex,
      kDexCacheStringCacheSize]
  · intro slots m v hm
    have hslot : slotIndex kDexCacheStringCacheSize (m * kDexCacheStringCacheSize) = 0 := by
      simp [slotIndex, Nat.mul_mod_left]
    refine ⟨hslot, ?_⟩
    have h1 : DexCachePair.InvalidIndexForSlot 0 = 1 := rfl
    have h2 : insertSlot kDexCacheStringCacheSize slots (m * kDexCacheStringCacheSize) v 0 =
        ⟨some v, m * kDexCacheStringCacheSize⟩ := by
      simp [insertSlot, hslot]
    rw [h2, h1]
    show m * kDexCacheStringCacheSize ≠ 1
    unfold kDexCacheStringCacheSize
    omega

/-- Witness for C3 with value type `Nat`, `m = 2` in the last conjunct. -/
theorem C3_slot_zero_sentinel_witness :
    slotIndex kDexCacheStringCacheSize (2 * kDexCacheStringCacheSize) = 0 ∧
    (insertSlot kDexCacheStringCacheSize (DexCachePair.freshSlots Nat)
       (2 * kDexCacheStringCacheSize) 9 0).index ≠
      DexCachePair.InvalidIndexForSlot 0 :=
  (C3_slot_zero_sentinel.2.2.2.2 (DexCachePair.freshSlots Nat) 2 9 (by decide))

/-- C5: for the fixed power-of-two capacity `C = kDexCacheStringCacheSize`,
the physical slot of a logical index equals `logical_index & (C-1)`; insert
unconditionally overwrites the previous occupant of that slot even when it
cached a different logical index; hence inserting at `k` and then at `k+C`
makes `Lookup(k)` miss and `Lookup(k+C)` return the second value. -/
theorem C5_direct_map_aliasing {α : Type} :
    (∀ k, slotIndex kDexCacheStringCacheSize k = k &&& (kDexCacheStringCacheSize - 1)) ∧
    (∀ (slots : Nat → DexCachePair α) (k : Nat) (v : α),
       insertSlot kDexCacheStringCacheSize slots k v (slotIndex kDexCacheStringCacheSize k) =
         ⟨some v, k⟩) ∧
    (∀ (slots : Nat → DexCachePair α) (k : Nat) (v1 v2 : α),
       lookupSlot kDexCacheStringCacheSize
         (insertSlot kDexCacheStringCacheSize
           (insertSlot kDexCacheStringCacheSize slots k v1)
           (k + kDexCacheStringCacheSize) v2) k = none ∧
       lookupSlot kDexCacheStringCacheSize
         (insertSlot kDexCacheStringCacheSize
           (insertSlot kDexCacheStringCacheSize slots k v1)
           (k + kDexCacheStringCacheSize) v2) (k + kDexCacheStringCacheSize) = some v2) := by
  refine ⟨?_, ?_, ?_⟩
  · intro k
    show k % kDexCacheStringCacheSize = k &&& (kDexCacheStringCacheSize - 1)
    unfold kDexCacheStringCacheSize
    apply Eq.symm
    apply Nat.eq_of_testBit_eq
    intro i
    have h1 : (1024 - 1 : Nat) = 2 ^ 10 - 1 := by norm_num
    have h2 : (1024 : Nat) = 2 ^ 10 := by norm_num
    rw [Nat.testBit_and, h1, h2, Nat.testBit_two_pow_sub_one, Nat.testBit_mod_two_pow,
      Bool.and_comm]
  · intro slots k v
    simp [insertSlot]
  · intro slots k v1 v2
    have hali : slotIndex kDexCacheStringCacheSize (k + kDexCacheStringCacheSize) =
        slotIndex kDexCacheStringCacheSize k := by
      simp [slotIndex, Nat.add_mod_right]
    have hpair : insertSlot kDexCacheStringCacheSize
        (insertSlot kDexCacheStringCacheSize slots k v1)
        (k + kDexCacheStringCacheSize) v2 (slotIndex kDexCacheStringCacheSize k) =
        ⟨some v2, k + kDexCacheStringCacheSize⟩ := by
      simp [insertSlot, hali]
    constructor
    · unfold lookupSlot
      rw [hpair]
      unfold DexCachePair.GetObjectForIndex
      have : k ≠ k + kDexCacheStringCacheSize := by
        unfold kDexCacheStringCacheSize
        omega
      simp [this]
    · unfold lookupSlot
      rw [hali, hpair]
      unfold DexCachePair.GetObjectForIndex
      simp

/-- C6: `ClearIfMatching` clears by index-only matching: clearing after a
single insert at `k` empties the slot; clearing after two inserts at the
same index `k` (a stale clear) still matches and discards the second value;
and a clear whose index differs from the stored index leaves the whole
cache unchanged. -/
theorem C6_clear_if_matching {α : Type} :
    (∀ (slots : Nat → DexCachePair α) (k : Nat) (v1 : α),
       lookupSlot kDexCacheStringCacheSize
         (clearSlot kDexCacheStringCacheSize
           (insertSlot kDexCacheStringCacheSize slots k v1) k) k = none) ∧
    (∀ (slots : Nat → DexCachePair α) (k : Nat) (v1 v2 : α),
       lookupSlot kDexCacheStringCacheSize
         (clearSlot kDexCacheStringCacheSize
           (insertSlot kDexCacheStringCacheSize
             (insertSlot kDexCacheStringCacheSize slots k v1) k v2) k) k = none) ∧
    (∀ (slots : Nat → DexCachePair α) (k : Nat),
       (slots (slotIndex kDexCacheStringCacheSize k)).index ≠ k →
       clearSlot kDexCacheStringCacheSize slots k = slots) := by
  have hclear : ∀ (slots : Nat → DexCachePair α) (k : Nat),
      (slots (slotIndex kDexCacheStringCacheSize k)).index = k →
      lookupSlot kDexCacheStringCacheSize
        (clearSlot kDexCacheStringCacheSize slots k) k = none := by
    intro slots k hidx
    unfold lookupSlot clearSlot
    rw [if_pos hidx]
    simp only [if_pos rfl]
    exact getObjectForIndex_of_object_none _ _ rfl
  refine ⟨?_, ?_, ?_⟩
  · intro slots k v1
    apply hclear
    simp [insertSlot]
  · intro slots k v1 v2
    apply hclear
    simp [insertSlot]
  · intro slots k hne
    unfold clearSlot
    rw [if_neg hne]

/-- Witness for C6's compare-then-clear no-op conjunct: on a fresh cache,
slot 5 stores index 0 (its empty sentinel), so `ClearIfMatching(5)` leaves
the cache unchanged. -/
theorem C6_clear_if_matching_witness :
    clearSlot kDexCacheStringCacheSize (DexCachePair.freshSlots Nat) 5 =
      DexCachePair.freshSlots Nat :=
  C6_clear_if_matching.2.2 (DexCachePair.freshSlots Nat) 5 (by decide)

/-- C1: the slot disjunction — fully empty (null object, the slot's
empty-sentinel index) or fully populated (non-null object, a logical index
mapping to the slot) — holds for every non-zero slot after zero-fill, for
every slot after the full initialization sequence (zero-fill then slot-zero
setup, which is the first observable state), and is preserved by install and
by compare-then-clear; and a lookup whose index comparison succeeds on a
populated slot returns its non-null stored object. -/
theorem C1_slot_state_disjunction {α : Type} (C : Nat) :
    (∀ s, s ≠ 0 → SlotInvariant C s (DexCachePair.zeroFilled α s)) ∧
    CacheInvariant C (DexCachePair.freshSlots α) ∧
    (∀ (slots : Nat → DexCachePair α) (k : Nat) (v : α), CacheInvariant C slots →
       CacheInvariant C (insertSlot C slots k v)) ∧
    (∀ (slots : Nat → DexCachePair α) (k : Nat), CacheInvariant C slots →
       CacheInvariant C (clearSlot C slots k)) ∧
    (∀ (p : DexCachePair α) (idx : Nat) (v : α),
       p.object = some v → p.index = idx → p.GetObjectForIndex idx = some v) := by
  refine ⟨?_, cacheInvariant_fresh C, ?_, ?_, ?_⟩
  · intro s hs
    simp [DexCachePair.zeroFilled, SlotInvariant, DexCachePair.InvalidIndexForSlot, hs]
  · intro slots k v h
    exact cacheInvariant_insert C slots k v h
  · intro slots k h
    exact cacheInvariant_clear C slots k h
  · intro p idx v hobj hidx
    simp [DexCachePair.GetObjectForIndex, hidx, hobj]

/-- Witness for C1 at `C = 1024`: the invariant holds for the fresh cache,
after an install at index 5, and after the subsequent clear; and the lookup
of a concrete populated slot returns its object. -/
theorem C1_slot_state_disjunction_witness :
    CacheInvariant 1024 (insertSlot 1024 (DexCachePair.freshSlots Nat) 5 7) ∧
    CacheInvariant 1024 (clearSlot 1024 (insertSlot 1024 (DexCachePair.freshSlots Nat) 5 7) 5) ∧
    (⟨some 7, 5⟩ : DexCachePair Nat).GetObjectForIndex 5 = some 7 :=
  ⟨(C1_slot_state_disjunction 1024).2.2.1 _ 5 7 (cacheInvariant_fresh 1024),
   (C1_slot_state_disjunction 1024).2.2.2.1 _ 5
     ((C1_slot_state_disjunction 1024).2.2.1 _ 5 7 (cacheInvariant_fresh 1024)),
   (C1_slot_state_disjunction 1024).2.2.2.2 ⟨some 7, 5⟩ 5 7 rfl rfl⟩

/-- C9: since the capacity is the power of two 1024 and the slot mapping is
`mod 1024`, logical index 0 maps only to slot 0 (any index reaching a
non-zero slot is non-zero); the zero-initialized empty encoding `{null, 0}`
of a non-zero slot can never match an index that maps to that slot, and
slot 0's empty encoding `{null, 1}` can never match an index that maps to
slot 0; consequently, on any cache satisfying the slot invariant, a
successful index comparison implies the stored object is non-null, so the
object reference returned after a match is never null. -/
theorem C9_empty_slot_never_matches {α : Type} :
    slotIndex kDexCacheTypeCacheSize 0 = 0 ∧
    (∀ idx, slotIndex kDexCacheTypeCacheSize idx ≠ 0 →
       idx ≠ 0 ∧ (⟨none, 0⟩ : DexCachePair α).GetObjectForIndex idx = none) ∧
    (∀ idx, slotIndex kDexCacheTypeCacheSize idx = 0 →
       (⟨none, 1⟩ : DexCachePair α).GetObjectForIndex idx = none) ∧
    (∀ (slots : Nat → DexCachePair α), CacheInvariant kDexCacheTypeCacheSize slots →
       ∀ idx, (slots (slotIndex kDexCacheTypeCacheSize idx)).index = idx →
         (slots (slotIndex kDexCacheTypeCacheSize idx)).object ≠ none) := by
  refine ⟨rfl, ?_, ?_, ?_⟩
  · intro idx hne
    have hidx : idx ≠ 0 := by
      intro h0
      exact hne (by simp [h0, slotIndex])
    refine ⟨hidx, ?_⟩
    simp [DexCachePair.GetObjectForIndex, hidx]
  · intro idx h0
    have hidx : idx ≠ 1 := by
      intro h1
      rw [h1] at h0
      exact absurd h0 (by decide)
    simp [DexCachePair.GetObjectForIndex, hidx]
  · intro slots h idx hmatch
    exact invariant_match_not_none kDexCacheTypeCacheSize (by decide) slots idx h hmatch

/-- Witness for C9 on a cache holding index 7 in slot 7: the index match
succeeds and the stored object is indeed non-null. -/
theorem C9_empty_slot_never_matches_witness :
    (insertSlot kDexCacheTypeCacheSize (DexCachePair.freshSlots Nat) 7 3
      (slotIndex kDexCacheTypeCacheSize 7)).object ≠ none :=
  C9_empty_slot_never_matches.2.2.2
    (insertSlot kDexCacheTypeCacheSize (DexCachePair.freshSlots Nat) 7 3)
    (cacheInvariant_insert kDexCacheTypeCacheSize _ 7 3 (cacheInvariant_fresh _))
    7 (by decide)

/-- C4: `SetResolvedCallSite` is bind-once: when the slot is null it
installs the candidate and returns it; when the slot is already bound it
leaves the whole cache unchanged, discards the candidate and returns the
installed value; hence in any linearized sequence of competing calls on one
index, the first candidate is installed, the binding never changes
afterwards, and every call returns that same first value. -/
theorem C4_call_site_bind_once (c : DexCache) (k : Nat) (cand : CallSite) :
    (c.resolved_call_sites k = none →
       (c.SetResolvedCallSite k cand).2 = cand ∧
       (c.SetResolvedCallSite k cand).1.resolved_call_sites k = some cand) ∧
    (∀ w, c.resolved_call_sites k = some w →
       c.SetResolvedCallSite k cand = (c, w)) ∧
    (c.resolved_call_sites k = none → ∀ rest : List CallSite,
       (runCallSiteBinds c k (cand :: rest)).1.resolved_call_sites k = some cand ∧
       (runCallSiteBinds c k (cand :: rest)).2 =
         List.replicate (rest.length + 1) cand) := by
  refine ⟨?_, ?_, ?_⟩
  · intro hnone
    unfold DexCache.SetResolvedCallSite
    rw [hnone]
    exact ⟨rfl, by simp⟩
  · intro w hsome
    unfold DexCache.SetResolvedCallSite
    rw [hsome]
  · intro hnone rest
    have hstep : c.SetResolvedCallSite k cand =
        ({ c with resolved_call_sites :=
             fun i => if i = k then some cand else c.resolved_call_sites i },
         cand) := by
      unfold DexCache.SetResolvedCallSite
      rw [hnone]
    have hbound : ({ c with resolved_call_sites :=
        fun i => if i = k then some cand else c.resolved_call_sites i } :
          DexCache).resolved_call_sites k = some cand := by
      simp
    unfold runCallSiteBinds
    rw [hstep]
    simp only []
    rw [runCallSiteBinds_of_bound k cand rest _ hbound]
    exact ⟨hbound, by simp [List.replicate]⟩

/-- Witness for C4 on `sampleCache` (call-site slot 2 unbound) with two
competing candidates: the first is installed and both calls return it. -/
theorem C4_call_site_bind_once_witness :
    (runCallSiteBinds sampleCache 2 [⟨1⟩, ⟨2⟩]).1.resolved_call_sites 2 = some ⟨1⟩ ∧
    (runCallSiteBinds sampleCache 2 [⟨1⟩, ⟨2⟩]).2 = List.replicate 2 ⟨1⟩ :=
  (C4_call_site_bind_once sampleCache 2 ⟨1⟩).2.2 rfl [⟨2⟩]

/-- C7: each of the four native bindings aborts (failed `CHECK`) exactly
when the supplied index reaches or exceeds the defining dex file's declared
count (`NumTypeIds` / `NumStringIds`); under the in-bounds precondition the
abort branch is unreachable and the binding returns normally. -/
theorem C7_native_bindings_bounds_check (tbl : Option (MirrorClass → MirrorClass))
    (c : DexCache) (idx : Nat) (t : Option MirrorClass) (s : Option String) :
    (DexCache_getResolvedType c idx = .error .checkFailure ↔
       c.dex_file.numTypeIds ≤ idx) ∧
    (DexCache_getResolvedString c idx = .error .checkFailure ↔
       c.dex_file.numStringIds ≤ idx) ∧
    (DexCache_setResolvedType tbl c idx t = .error .checkFailure ↔
       c.dex_file.numTypeIds ≤ idx) ∧
    (DexCache_setResolvedString c idx s = .error .checkFailure ↔
       c.dex_file.numStringIds ≤ idx) ∧
    (idx < c.dex_file.numTypeIds →
       DexCache_getResolvedType c idx = .ok (c.GetResolvedType idx)) ∧
    (idx < c.dex_file.numStringIds →
       DexCache_getResolvedString c idx = .ok (c.GetResolvedString idx)) ∧
    (idx < c.dex_file.numTypeIds →
       ∃ c', DexCache_setResolvedType tbl c idx t = .ok c') ∧
    (idx < c.dex_file.numStringIds →
       ∃ c', DexCache_setResolvedString c idx s = .ok c') := by
  unfold DexCache_getResolvedType DexCache_getResolvedString
    DexCache_setResolvedType DexCache_setResolvedString
  refine ⟨?_, ?_, ?_, ?_, ?_, ?_, ?_, ?_⟩
  · constructor
    · intro h
      by_contra hlt
      rw [if_pos (Nat.lt_of_not_le hlt)] at h
      exact Except.noConfusion h
    · intro h
      rw [if_neg (Nat.not_lt_of_le h)]
  · constructor
    · intro h
      by_contra hlt
      rw [if_pos (Nat.lt_of_not_le hlt)] at h
      exact Except.noConfusion h
    · intro h
      rw [if_neg (Nat.not_lt_of_le h)]
  · constructor
    · intro h
      by_contra hlt
      rw [if_pos (Nat.lt_of_not_le hlt)] at h
      exact Except.noConfusion h
    · intro h
      rw [if_neg (Nat.not_lt_of_le h)]
  · constructor
    · intro h
      by_contra hlt
      rw [if_pos (Nat.lt_of_not_le hlt)] at h
      exact Except.noConfusion h
    · intro h
      rw [if_neg (Nat.not_lt_of_le h)]
  · intro h
    rw [if_pos h]
  · intro h
    rw [if_pos h]
  · intro h
    rw [if_pos h]
    exact ⟨_, rfl⟩
  · intro h
    rw [if_pos h]
    exact ⟨_, rfl⟩

/-- Witness for C7 on `sampleCache` (8 type ids, 8 string ids): index 3 is
served without aborting, and index 100 aborts. -/
theorem C7_native_bindings_bounds_check_witness :
    (DexCache_getResolvedType sampleCache 3 = .ok (sampleCache.GetResolvedType 3)) ∧
    (DexCache_getResolvedString sampleCache 3 = .ok (sampleCache.GetResolvedString 3)) ∧
    (∃ c', DexCache_setResolvedType none sampleCache 3 none = .ok c') ∧
    (∃ c', DexCache_setResolvedString sampleCache 3 none = .ok c') ∧
    (DexCache_getResolvedType sampleCache 100 = .error .checkFailure ↔
       sampleCache.dex_file.numTypeIds ≤ 100) :=
  ⟨(C7_native_bindings_bounds_check none sampleCache 3 none none).2.2.2.2.1 (by decide),
   (C7_native_bindings_bounds_check none sampleCache 3 none none).2.2.2.2.2.1 (by decide),
   (C7_native_bindings_bounds_check none sampleCache 3 none none).2.2.2.2.2.2.1 (by decide),
   (C7_native_bindings_bounds_check none sampleCache 3 none none).2.2.2.2.2.2.2 (by decide),
   (C7_native_bindings_bounds_check none sampleCache 100 none none).1⟩

/-- C8: under the in-bounds precondition, the native `setResolvedType`
binding either leaves the cache completely unchanged or installs a value
`t'` for which the supplied object was non-null, its descriptor equals the
descriptor the dex file declares for the index, a class table was found,
and the table's insert-or-get-existing returned `t'` itself (the canonical
class); in particular no type whose descriptor differs from the expected
descriptor is ever installed through this path. -/
theorem C8_set_resolved_type_guarded (tbl : Option (MirrorClass → MirrorClass))
    (c : DexCache) (idx : Nat) (t : Option MirrorClass)
    (hidx : idx < c.dex_file.numTypeIds) :
    DexCache_setResolvedType tbl c idx t = .ok c ∨
    (∃ t' tb, t = some t' ∧ tbl = some tb ∧
       t'.descriptor = c.dex_file.stringByTypeIdx idx ∧ tb t' = t' ∧
       DexCache_setResolvedType tbl c idx t = .ok (c.SetResolvedType idx t')) := by
  unfold DexCache_setResolvedType
  rw [if_pos hidx]
  cases t with
  | none => exact Or.inl rfl
  | some t' =>
      by_cases hdesc : t'.descriptor = c.dex_file.stringByTypeIdx idx
      · cases tbl with
        | none => exact Or.inl (by simp [hdesc])
        | some tb =>
            by_cases hins : tb t' = t'
            · exact Or.inr ⟨t', tb, rfl, rfl, hdesc, hins, by simp [hdesc, hins]⟩
            · exact Or.inl (by simp [hdesc, hins])
      · exact Or.inl (by simp [hdesc])

/-- Witness for C8 on `sampleCache` at index 3 with a class whose
descriptor matches and an identity class table. -/
theorem C8_set_resolved_type_guarded_witness :
    DexCache_setResolvedType (some id) sampleCache 3 (some ⟨"LA;", 0⟩) = .ok sampleCache ∨
    (∃ t' tb, (some (⟨"LA;", 0⟩ : MirrorClass)) = some t' ∧ (some id) = some tb ∧
       t'.descriptor = sampleCache.dex_file.stringByTypeIdx 3 ∧ tb t' = t' ∧
       DexCache_setResolvedType (some id) sampleCache 3 (some ⟨"LA;", 0⟩) =
         .ok (sampleCache.SetResolvedType 3 t')) :=
  C8_set_resolved_type_guarded (some id) sampleCache 3 (some ⟨"LA;", 0⟩) (by decide)

/-- C10: for every in-bounds index, calling the native `setResolvedString`
binding with a null string, or the native `setResolvedType` binding with a
null type, returns normally (no abort) and leaves the cache state exactly
unchanged. -/
theorem C10_null_value_silently_discarded (c : DexCache)
    (string_index type_index : Nat) (tbl : Option (MirrorClass → MirrorClass)) :
    (string_index < c.dex_file.numStringIds →
       DexCache_setResolvedString c string_index none = .ok c) ∧
    (type_index < c.dex_file.numTypeIds →
       DexCache_setResolvedType tbl c type_index none = .ok c) := by
  constructor
  · intro h
    unfold DexCache_setResolvedString
    rw [if_pos h]
  · intro h
    unfold DexCache_setResolvedType
    rw [if_pos h]

/-- Witness for C10 on `sampleCache` at index 3. -/
theorem C10_null_value_silently_discarded_witness :
    DexCache_setResolvedString sampleCache 3 none = .ok sampleCache ∧
    DexCache_setResolvedType none sampleCache 3 none = .ok sampleCache :=
  ⟨(C10_null_value_silently_discarded sampleCache 3 3 none).1 (by decide),
   (C10_null_value_silently_discarded sampleCache 3 3 none).2 (by decide)⟩
